import Mathlib

/-!
# Verification of the incident-response pipeline agents

Shallow embedding of the agent code (`monitor_agent.py`, `triage_agent.py`,
`diagnostic_agent.py`, `remediation_agent.py`) and proofs about it.

External services (the Prometheus backend, the LLM, the JSON parser of the
LangChain library) are modelled as explicit function parameters; the code of
the repository itself is translated definition by definition.
-/

namespace Monitor

/-- One alert as reported by the alerts API: the `alertname` label and the
reported lifecycle `state` (`"inactive"`, `"pending"` or `"firing"`).
Mirrors the dictionaries consumed by `MonitorAgent._check_alerts`. -/
structure PromAlert where
  alertname : String
  state : String
deriving DecidableEq, Repr

/-- The outcome of `PrometheusClient.get_alerts` as seen by
`MonitorAgent._check_alerts`: a raised exception (caught by the outer
`try`/`except`), a `None` result (the explicit `alerts is None` check), or a
list of alerts. -/
inductive FetchResult where
  | failure (msg : String)
  | missing
  | ok (alerts : List PromAlert)
deriving DecidableEq, Repr

/-- The set comprehension `current_firing`:
`{alert["labels"]["alertname"] for alert in alerts if alert.get("state") == "firing"}`. -/
def firingNames (alerts : List PromAlert) : Finset String :=
  ((alerts.filter (fun a => a.state = "firing")).map (fun a => a.alertname)).toFinset

/-- Result of one tick of `MonitorAgent._check_alerts`: the updated
`self.firing_alerts` set and the sets of names for which a new-alert /
resolved-alert event was logged (one event per name; Python iterates sets,
so no cross-name order is guaranteed and a `Finset` is the faithful model). -/
structure TickResult where
  tracked : Finset String
  newAlerts : Finset String
  resolvedAlerts : Finset String
deriving DecidableEq

/-- One tick of `MonitorAgent._check_alerts`, with the previous
`self.firing_alerts` passed explicitly.  A fetch failure (exception or `None`)
returns with the tracked set unchanged and no events; otherwise
`new_alerts = current_firing - self.firing_alerts`,
`resolved_alerts = self.firing_alerts - current_firing`, and the tracked set
is replaced by `current_firing`. -/
def checkAlerts (prev : Finset String) (fetch : FetchResult) : TickResult :=
  match fetch with
  | .failure _ => ⟨prev, ∅, ∅⟩
  | .missing => ⟨prev, ∅, ∅⟩
  | .ok alerts =>
      let current := firingNames alerts
      ⟨current, current \ prev, prev \ current⟩

/-- The polling loop of `MonitorAgent.start`, driven by a list of fetch
outcomes: one `TickResult` per poll, threading `self.firing_alerts`. -/
def runMonitor (init : Finset String) : List FetchResult → List TickResult
  | [] => []
  | p :: ps =>
      let r := checkAlerts init p
      r :: runMonitor r.tracked ps

/-- The tracked firing set held just before tick `n` of the polling loop. -/
def stateBefore (init : Finset String) : List FetchResult → Nat → Finset String
  | [], _ => init
  | _ :: _, 0 => init
  | p :: ps, n + 1 => stateBefore (checkAlerts init p).tracked ps n

theorem runMonitor_length (init : Finset String) (polls : List FetchResult) :
    (runMonitor init polls).length = polls.length := by
  induction polls generalizing init with
  | nil => rfl
  | cons p ps ih => simp [runMonitor, ih]

theorem runMonitor_getElem? (polls : List FetchResult) (init : Finset String)
    (n : Nat) :
    (runMonitor init polls)[n]? =
      (polls[n]?).map (fun p => checkAlerts (stateBefore init polls n) p) := by
  induction polls generalizing init n with
  | nil => simp [runMonitor, stateBefore]
  | cons p ps ih =>
      cases n with
      | zero => simp [runMonitor, stateBefore]
      | succ m => simpa [runMonitor, stateBefore] using ih _ _

theorem mem_firingNames (alerts : List PromAlert) (A : String) :
    A ∈ firingNames alerts ↔
      ∃ a ∈ alerts, a.state = "firing" ∧ a.alertname = A := by
  simp only [firingNames, List.mem_toFinset, List.mem_map, List.mem_filter,
    decide_eq_true_eq]
  constructor
  · rintro ⟨a, ⟨ha, hs⟩, hn⟩
    exact ⟨a, ha, hs, hn⟩
  · rintro ⟨a, ha, hs, hn⟩
    exact ⟨a, ⟨ha, hs⟩, hn⟩

/-- C1: on every tick of every poll sequence whose fetch succeeds, a
new-alert event is emitted for `A` iff `A` is firing now but was not in the
tracked firing set before the tick, a resolved-alert event iff `A` was
tracked but is not firing now, and no event of either kind when `A`'s firing
membership is unchanged (in particular, re-observing an already-firing alert
produces no event). -/
theorem tick_events_iff_membership_edge (init : Finset String)
    (polls : List FetchResult) (n : Nat) (alerts : List PromAlert) (A : String)
    (hp : polls[n]? = some (.ok alerts)) :
    ∃ r, (runMonitor init polls)[n]? = some r ∧
      (A ∈ r.newAlerts ↔
        A ∈ firingNames alerts ∧ A ∉ stateBefore init polls n) ∧
      (A ∈ r.resolvedAlerts ↔
        A ∈ stateBefore init polls n ∧ A ∉ firingNames alerts) ∧
      ((A ∈ firingNames alerts ↔ A ∈ stateBefore init polls n) →
        A ∉ r.newAlerts ∧ A ∉ r.resolvedAlerts) := by
  refine ⟨checkAlerts (stateBefore init polls n) (.ok alerts), ?_, ?_, ?_, ?_⟩
  · rw [runMonitor_getElem?, hp]
    rfl
  · simp [checkAlerts]
  · simp [checkAlerts]
  · intro h
    simp only [checkAlerts, Finset.mem_sdiff]
    exact ⟨fun hc => (hc.2 (h.mp hc.1)).elim, fun hc => (hc.2 (h.mpr hc.1)).elim⟩

/-- Witness for `tick_events_iff_membership_edge` at a concrete poll
sequence: first tick fetches one firing alert `"A"` from an empty tracked
set. -/
theorem tick_events_iff_membership_edge_witness :
    ∃ r,
      (runMonitor ∅ [.ok [⟨"A", "firing"⟩]])[0]? = some r ∧
      (("A" : String) ∈ r.newAlerts ↔
        ("A" : String) ∈ firingNames [⟨"A", "firing"⟩] ∧
          ("A" : String) ∉ stateBefore ∅ [.ok [⟨"A", "firing"⟩]] 0) ∧
      (("A" : String) ∈ r.resolvedAlerts ↔
        ("A" : String) ∈ stateBefore ∅ [.ok [⟨"A", "firing"⟩]] 0 ∧
          ("A" : String) ∉ firingNames [⟨"A", "firing"⟩]) ∧
      ((("A" : String) ∈ firingNames [⟨"A", "firing"⟩] ↔
          ("A" : String) ∈ stateBefore ∅ [.ok [⟨"A", "firing"⟩]] 0) →
        ("A" : String) ∉ r.newAlerts ∧ ("A" : String) ∉ r.resolvedAlerts) :=
  tick_events_iff_membership_edge ∅ [.ok [⟨"A", "firing"⟩]] 0
    [⟨"A", "firing"⟩] "A" rfl

/-- C5: a tick whose fetch fails — a raised transport error (caught by the
surrounding `except`) or a `None` result — changes nothing: the tracked
firing set is exactly the set held before the tick and no new-alert or
resolved-alert event is emitted; the failure never escapes the tick. -/
theorem failed_tick_skips_without_state_change (init : Finset String)
    (polls : List FetchResult) (n : Nat)
    (hp : (∃ msg, polls[n]? = some (.failure msg)) ∨
      polls[n]? = some .missing) :
    (runMonitor init polls)[n]? =
      some ⟨stateBefore init polls n, ∅, ∅⟩ := by
  rcases hp with ⟨msg, hp⟩ | hp <;>
    · rw [runMonitor_getElem?, hp]
      rfl

/-- Witness for `failed_tick_skips_without_state_change`: a two-tick run
whose second fetch raises, after the first tick tracked `"A"`. -/
theorem failed_tick_skips_without_state_change_witness :
    (runMonitor ∅ [.ok [⟨"A", "firing"⟩], .failure "timeout"])[1]? =
      some ⟨stateBefore ∅ [.ok [⟨"A", "firing"⟩], .failure "timeout"] 1,
        ∅, ∅⟩ :=
  failed_tick_skips_without_state_change ∅
    [.ok [⟨"A", "firing"⟩], .failure "timeout"] 1 (.inl ⟨"timeout", rfl⟩)

/-- C10: the result of a tick is computed solely from the names of alerts
reported in state `"firing"` (and the previous tracked set): appending
reports in any non-firing state changes neither the tracked set nor the
events, the tick result equals the result on the firing-filtered list, and a
name none of whose reports are firing neither enters the tracked set nor
receives a new-alert event. -/
theorem non_firing_reports_are_inert (prev : Finset String)
    (alerts extra : List PromAlert) (A : String)
    (hextra : ∀ a ∈ extra, a.state ≠ "firing")
    (hA : ∀ a ∈ alerts, a.alertname = A → a.state ≠ "firing") :
    checkAlerts prev (.ok (alerts ++ extra)) = checkAlerts prev (.ok alerts) ∧
    checkAlerts prev (.ok alerts) =
      checkAlerts prev (.ok (alerts.filter (fun a => a.state = "firing"))) ∧
    A ∉ (checkAlerts prev (.ok alerts)).tracked ∧
    A ∉ (checkAlerts prev (.ok alerts)).newAlerts := by
  have hfilter : firingNames (alerts ++ extra) = firingNames alerts := by
    simp only [firingNames, List.filter_append]
    have : extra.filter (fun a => a.state = "firing") = [] := by
      rw [List.filter_eq_nil_iff]
      intro a ha
      simpa using hextra a ha
    rw [this, List.append_nil]
  have hfilter2 :
      firingNames (alerts.filter (fun a => a.state = "firing")) =
        firingNames alerts := by
    simp [firingNames, List.filter_filter]
  have hmem : A ∉ firingNames alerts := by
    rw [mem_firingNames]
    rintro ⟨a, ha, hs, hn⟩
    exact hA a ha hn hs
  refine ⟨?_, ?_, ?_, ?_⟩
  · simp [checkAlerts, hfilter]
  · simp [checkAlerts, hfilter2]
  · simpa [checkAlerts] using hmem
  · simp only [checkAlerts, Finset.mem_sdiff]
    exact fun hc => hmem hc.1

/-- Witness for `non_firing_reports_are_inert`: a pending report for `"A"`
and an appended inactive report for `"B"` are both inert. -/
theorem non_firing_reports_are_inert_witness :
    checkAlerts ∅ (.ok ([⟨"A", "pending"⟩] ++ [⟨"B", "inactive"⟩])) =
        checkAlerts ∅ (.ok [⟨"A", "pending"⟩]) ∧
      checkAlerts ∅ (.ok [⟨"A", "pending"⟩]) =
        checkAlerts ∅
          (.ok ([⟨"A", "pending"⟩].filter (fun a => a.state = "firing"))) ∧
      ("A" : String) ∉ (checkAlerts ∅ (.ok [⟨"A", "pending"⟩])).tracked ∧
      ("A" : String) ∉ (checkAlerts ∅ (.ok [⟨"A", "pending"⟩])).newAlerts :=
  non_firing_reports_are_inert ∅ [⟨"A", "pending"⟩] [⟨"B", "inactive"⟩] "A"
    (by decide) (by decide)

end Monitor

/-- The Python format specifier `:.4f` applied to a metric value (values are
modelled as rationals): the value rounded to four decimal places (the
rounding integer is `⌊q·10000 + 1/2⌋`, computed on the numerator and
denominator) and printed with exactly four fractional digits.  Both
`DiagnosticAgent._format_metrics` and `TriageAgent._generate_summary` format
numeric values with this same specifier, so both embeddings share this
definition. -/
def formatFixed4 (q : ℚ) : String :=
  let n : ℤ := Int.fdiv (q.num * 20000 + (q.den : ℤ)) (2 * (q.den : ℤ))
  let sign := if n < 0 then "-" else ""
  let m := n.natAbs
  let ip := m / 10000
  let fp := m % 10000
  let fpStr := toString fp
  sign ++ toString ip ++ "." ++
    String.mk (List.replicate (4 - fpStr.length) '0') ++ fpStr

namespace Triage

/-- One series of an instant query result: the `metric` label set and the
value `float(item["value"][1])`. -/
structure Series where
  metric : List (String × String)
  val : ℚ
deriving DecidableEq

/-- One series of a range query result: the `metric` label set and the
ordered `(timestamp, value)` pairs of `item["values"]`. -/
structure RangeSeries where
  metric : List (String × String)
  values : List (ℚ × ℚ)
deriving DecidableEq

/-- The Python value stored for one metric in the `metrics` dict of
`TriageAgent._query_current_metrics`: `None`, a single dict
`\x7b"value": …, "labels": …\x7d`, a list of such dicts, or the error marker
dict `\x7b"error": str(e)\x7d`. -/
inductive PyVal where
  | none
  | single (labels : List (String × String)) (value : ℚ)
  | multi (items : List (List (String × String) × ℚ))
  | err (msg : String)
deriving DecidableEq

/-- The value stored for one metric in the `time_series` dict of
`TriageAgent._query_time_series`: the range-result analogue of `PyVal`. -/
inductive PyRangeVal where
  | none
  | single (labels : List (String × String)) (values : List (ℚ × ℚ))
  | multi (items : List (List (String × String) × List (ℚ × ℚ)))
  | err (msg : String)
deriving DecidableEq

/-- Embeds `TriageAgent._parse_query_result`: empty result → `None`; a length-1
result → a single dict; otherwise a list of dicts. -/
def parseQueryResult : List Series → PyVal
  | [] => .none
  | [s] => .single s.metric s.val
  | result => .multi (result.map fun s => (s.metric, s.val))

/-- Embeds `TriageAgent._parse_range_result`: empty result → `None`; a length-1
result → a single dict with its ordered `values`; otherwise a list of such
dicts. -/
def parseRangeResult : List RangeSeries → PyRangeVal
  | [] => .none
  | [s] => .single s.metric s.values
  | result => .multi (result.map fun s => (s.metric, s.values))

/-- Embeds `TriageAgent._query_current_metrics`, with the agent's
`investigation_queries` table and the backend (`PrometheusClient.query`
composed with `data.get("result", [])`) passed explicitly; a backend
exception is the `Except.error` case and is recorded as an error marker. -/
def queryCurrentMetrics (table : List (String × List (String × String)))
    (backend : String → Except String (List Series)) (alertName : String) :
    List (String × PyVal) :=
  match table.lookup alertName with
  | Option.none => []
  | some queries =>
      queries.map fun mq =>
        match backend mq.2 with
        | .ok result => (mq.1, parseQueryResult result)
        | .error e => (mq.1, .err e)

/-- Embeds `TriageAgent._query_time_series`, with the range backend
(`PrometheusClient.query_range` over the fixed 15-minute window) passed
explicitly. -/
def queryTimeSeries (table : List (String × List (String × String)))
    (rangeBackend : String → Except String (List RangeSeries))
    (alertName : String) : List (String × PyRangeVal) :=
  match table.lookup alertName with
  | Option.none => []
  | some queries =>
      queries.map fun mq =>
        match rangeBackend mq.2 with
        | .ok result => (mq.1, parseRangeResult result)
        | .error e => (mq.1, .err e)

/-- The fixed `self.investigation_queries` mapping of `TriageAgent.__init__`. -/
def investigationQueries : List (String × List (String × String)) :=
  [("HighErrorRate",
    [("error_rate_by_endpoint", "rate(http_errors_5xx_total[5m])"),
     ("total_request_rate", "rate(http_requests_total[5m])"),
     ("error_percentage",
      "(rate(http_errors_5xx_total[5m]) / rate(http_requests_total[5m])) * 100")]),
   ("SlowRequests",
    [("p50_latency",
      "histogram_quantile(0.50, rate(http_request_duration_seconds_bucket[5m]))"),
     ("p95_latency",
      "histogram_quantile(0.95, rate(http_request_duration_seconds_bucket[5m]))"),
     ("p99_latency",
      "histogram_quantile(0.99, rate(http_request_duration_seconds_bucket[5m]))"),
     ("request_rate_by_endpoint", "rate(http_requests_total[5m])")]),
   ("DatabasePoolExhaustion",
    [("current_pool_usage", "db_connection_pool_usage"),
     ("pool_usage_5m_avg", "avg_over_time(db_connection_pool_usage[5m])"),
     ("checkout_request_rate",
      "rate(http_requests_total\x7bendpoint=\"api.checkout\"\x7d[5m])")]),
   ("MemoryLeak",
    [("current_leaked_objects", "memory_leak_objects"),
     ("leak_growth_rate", "rate(memory_leak_objects[10m])"),
     ("cart_request_rate",
      "rate(http_requests_total\x7bendpoint=\"api.add_to_cart\"\x7d[5m])")]),
   ("InventoryRaceCondition",
    [("race_condition_rate", "rate(inventory_race_conditions_total[5m])"),
     ("inventory_update_rate",
      "rate(http_requests_total\x7bendpoint=\"api.update_inventory\"\x7d[5m])"),
     ("race_condition_percentage",
      "(rate(inventory_race_conditions_total[5m]) / rate(http_requests_total\x7bendpoint=\"api.update_inventory\"\x7d[5m])) * 100")])]

/-- The line `TriageAgent._generate_summary` appends for one metric entry:
error dicts, single-value dicts and lists each get one line; `None` (and any
other value) gets none. -/
def summaryLine (name : String) (v : PyVal) : Option String :=
  match v with
  | .err e => some ("  - " ++ name ++ ": Error - " ++ e)
  | .single _ q => some ("  - " ++ name ++ ": " ++ formatFixed4 q)
  | .multi items =>
      some ("  - " ++ name ++ ": " ++ toString items.length ++ " data points")
  | .none => Option.none

/-- Embeds `TriageAgent._generate_summary`: the header line followed by one line
per renderable metric entry, joined with newlines. -/
def generateSummary (alertName : String) (metrics : List (String × PyVal)) :
    String :=
  String.intercalate "\n"
    (("Investigation findings for " ++ alertName ++ ":") ::
      metrics.filterMap fun md => summaryLine md.1 md.2)

/-- The investigation report assembled by `TriageAgent.investigate_alert`
(the fields the claims are about: the `metrics` and `time_series` dicts and
the `investigation_summary`). -/
structure EvidenceReport where
  metrics : List (String × PyVal)
  timeSeries : List (String × PyRangeVal)
  summary : String
deriving DecidableEq

/-- Embeds `TriageAgent.investigate_alert`, with both backends passed explicitly. -/
def investigateAlert (table : List (String × List (String × String)))
    (backend : String → Except String (List Series))
    (rangeBackend : String → Except String (List RangeSeries))
    (alertName : String) : EvidenceReport :=
  let m := queryCurrentMetrics table backend alertName
  { metrics := m
    timeSeries := queryTimeSeries table rangeBackend alertName
    summary := generateSummary alertName m }

/-- Holds when `metric_data` is the error marker dict. -/
def isErrMarker : PyVal → Bool
  | .err _ => true
  | _ => false

/-- Holds when `metric_data` carries a parsed, populated value (a single dict or a
non-degenerate list of dicts). -/
def isPopulated : PyVal → Bool
  | .single _ _ => true
  | .multi _ => true
  | _ => false

theorem parseQueryResult_populated {r : List Series} (hr : r ≠ []) :
    isPopulated (parseQueryResult r) = true ∧
      isErrMarker (parseQueryResult r) = false := by
  match r with
  | [] => exact (hr rfl).elim
  | [s] => exact ⟨rfl, rfl⟩
  | a :: b :: t => exact ⟨rfl, rfl⟩

/-- C4: a failing metric query is isolated: with a two-metric query set for
an alert type where the first query raises and the second succeeds with a
non-empty result, the metrics map records the failure message as an error
marker under the first label and the parsed value under the second, exactly
one error marker and exactly one populated value in total — the remaining
query still runs and the investigation does not fail. -/
theorem metric_failure_is_isolated
    (table : List (String × List (String × String)))
    (backend : String → Except String (List Series))
    (alertName m1 q1 m2 q2 e : String) (r : List Series)
    (ht : table.lookup alertName = some [(m1, q1), (m2, q2)])
    (h1 : backend q1 = .error e) (h2 : backend q2 = .ok r) (hr : r ≠ []) :
    queryCurrentMetrics table backend alertName =
        [(m1, .err e), (m2, parseQueryResult r)] ∧
      (queryCurrentMetrics table backend alertName).countP
          (fun p => isErrMarker p.2) = 1 ∧
      (queryCurrentMetrics table backend alertName).countP
          (fun p => isPopulated p.2) = 1 := by
  have hq : queryCurrentMetrics table backend alertName =
      [(m1, .err e), (m2, parseQueryResult r)] := by
    simp [queryCurrentMetrics, ht, h1, h2]
  obtain ⟨hpop, herr⟩ := parseQueryResult_populated hr
  have he1 : isErrMarker (PyVal.err e) = true := rfl
  have he2 : isPopulated (PyVal.err e) = false := rfl
  refine ⟨hq, ?_, ?_⟩ <;> rw [hq] <;>
    simp [List.countP_cons, List.countP_nil, herr, hpop, he1, he2]

/-- Witness for `metric_failure_is_isolated`: a two-metric table where query
`"q1"` raises `"boom"` and `"q2"` returns one series. -/
theorem metric_failure_is_isolated_witness :
    Triage.queryCurrentMetrics [("X", [("m1", "q1"), ("m2", "q2")])]
          (fun q => if q = "q1" then .error "boom"
            else .ok [⟨[("endpoint", "a")], 1⟩]) "X" =
        [("m1", .err "boom"),
          ("m2", Triage.parseQueryResult [⟨[("endpoint", "a")], 1⟩])] ∧
      (Triage.queryCurrentMetrics [("X", [("m1", "q1"), ("m2", "q2")])]
          (fun q => if q = "q1" then .error "boom"
            else .ok [⟨[("endpoint", "a")], 1⟩]) "X").countP
          (fun p => Triage.isErrMarker p.2) = 1 ∧
      (Triage.queryCurrentMetrics [("X", [("m1", "q1"), ("m2", "q2")])]
          (fun q => if q = "q1" then .error "boom"
            else .ok [⟨[("endpoint", "a")], 1⟩]) "X").countP
          (fun p => Triage.isPopulated p.2) = 1 :=
  metric_failure_is_isolated [("X", [("m1", "q1"), ("m2", "q2")])]
    (fun q => if q = "q1" then .error "boom"
      else .ok [⟨[("endpoint", "a")], 1⟩])
    "X" "m1" "q1" "m2" "q2" "boom" [⟨[("endpoint", "a")], 1⟩]
    rfl rfl rfl (by decide)

/-- C6 counterexample: a length-1 backend result *is* special-cased by the
parsers: it is normalized to a bare dict, not to the one-element list that
the uniform multi-series shape would give (for instant and range results
alike). -/
theorem singleton_result_is_special_cased :
    Triage.parseQueryResult [⟨[("endpoint", "a")], 1⟩] =
        .single [("endpoint", "a")] 1 ∧
      Triage.parseQueryResult [⟨[("endpoint", "a")], 1⟩] ≠
        .multi [([("endpoint", "a")], 1)] ∧
      Triage.parseRangeResult [⟨[("endpoint", "a")], [(0, 1)]⟩] =
        .single [("endpoint", "a")] [(0, 1)] ∧
      Triage.parseRangeResult [⟨[("endpoint", "a")], [(0, 1)]⟩] ≠
        .multi [([("endpoint", "a")], [(0, 1)])] := by
  refine ⟨rfl, ?_, rfl, ?_⟩ <;> decide

/-- C6 (amended): the parsers normalize by arity into three shapes, the same
way for instant and range results: an empty result becomes `None`, a
length-1 result becomes a single `(label-set, value)` dict (for range
results, with its ordered `(timestamp, value)` sequence), and a result of
two or more series becomes the list of `(label-set, value)` dicts in backend
order. -/
theorem parse_results_shape_by_arity (s : Series) (rs : RangeSeries)
    (ss : List Series) (rss : List RangeSeries)
    (h2 : 2 ≤ ss.length) (h2r : 2 ≤ rss.length) :
    parseQueryResult [] = .none ∧
      parseQueryResult [s] = .single s.metric s.val ∧
      parseQueryResult ss = .multi (ss.map fun x => (x.metric, x.val)) ∧
      parseRangeResult [] = .none ∧
      parseRangeResult [rs] = .single rs.metric rs.values ∧
      parseRangeResult rss =
        .multi (rss.map fun x => (x.metric, x.values)) := by
  refine ⟨rfl, rfl, ?_, rfl, rfl, ?_⟩
  · match ss, h2 with
    | a :: b :: t, _ => rfl
  · match rss, h2r with
    | a :: b :: t, _ => rfl

/-- Witness for `parse_results_shape_by_arity` at concrete one- and
two-series results. -/
theorem parse_results_shape_by_arity_witness :
    parseQueryResult [] = .none ∧
      parseQueryResult [⟨[("endpoint", "a")], 1⟩] =
        .single (Series.mk [("endpoint", "a")] 1).metric
          (Series.mk [("endpoint", "a")] 1).val ∧
      parseQueryResult [⟨[], 1⟩, ⟨[], 2⟩] =
        .multi (([⟨[], 1⟩, ⟨[], 2⟩] : List Series).map
          fun x => (x.metric, x.val)) ∧
      parseRangeResult [] = .none ∧
      parseRangeResult [⟨[("endpoint", "a")], [(0, 1)]⟩] =
        .single (RangeSeries.mk [("endpoint", "a")] [(0, 1)]).metric
          (RangeSeries.mk [("endpoint", "a")] [(0, 1)]).values ∧
      parseRangeResult [⟨[], [(0, 1)]⟩, ⟨[], [(0, 2)]⟩] =
        .multi (([⟨[], [(0, 1)]⟩, ⟨[], [(0, 2)]⟩] : List RangeSeries).map
          fun x => (x.metric, x.values)) :=
  parse_results_shape_by_arity ⟨[("endpoint", "a")], 1⟩
    ⟨[("endpoint", "a")], [(0, 1)]⟩ [⟨[], 1⟩, ⟨[], 2⟩]
    [⟨[], [(0, 1)]⟩, ⟨[], [(0, 2)]⟩] (by decide) (by decide)

/-- C9: for an alert whose type has no entry in the query mapping,
`investigate_alert` succeeds and returns a report whose metrics and
time-series maps are empty and whose summary is exactly the header line
with nothing after it. -/
theorem unmapped_alert_yields_empty_report
    (backend : String → Except String (List Series))
    (rangeBackend : String → Except String (List RangeSeries))
    (alertName : String)
    (h : investigationQueries.lookup alertName = Option.none) :
    investigateAlert investigationQueries backend rangeBackend alertName =
      { metrics := []
        timeSeries := []
        summary := "Investigation findings for " ++ alertName ++ ":" } := by
  simp only [investigateAlert, queryCurrentMetrics, queryTimeSeries, h,
    generateSummary, List.filterMap_nil]
  rfl

/-- Witness for `unmapped_alert_yields_empty_report` at the unmapped alert
type `"UnknownAlertX"`. -/
theorem unmapped_alert_yields_empty_report_witness :
    investigateAlert investigationQueries (fun _ => .error "down")
        (fun _ => .error "down") "UnknownAlertX" =
      { metrics := []
        timeSeries := []
        summary := "Investigation findings for UnknownAlertX:" } := by
  have h := unmapped_alert_yields_empty_report (fun _ => .error "down")
    (fun _ => .error "down") "UnknownAlertX" (by decide)
  rw [h]
  rfl

end Triage

namespace Diagnostic

/-- Embeds `labels.get("endpoint", "N/A")`: association-list lookup with default. -/
def lookupDefault (labels : List (String × String)) (key dflt : String) :
    String :=
  (labels.lookup key).getD dflt

/-- The lines `DiagnosticAgent._format_metrics` emits for one metric entry:
error dicts and single-value dicts get one line; a list gets a caption line,
one bullet per item for the first five items, and an overflow line when more
than five exist; `None` gets nothing. -/
def diagMetricLines (name : String) (v : Triage.PyVal) : List String :=
  match v with
  | .err e => ["- " ++ name ++ ": ERROR - " ++ e]
  | .single _ q => ["- " ++ name ++ ": " ++ formatFixed4 q]
  | .multi items =>
      (("- " ++ name ++ ":") ::
        (items.take 5).map (fun it =>
          "    • " ++ lookupDefault it.1 "endpoint" "N/A" ++ ": " ++
            formatFixed4 it.2)) ++
      (if 5 < items.length then
        ["    • ... and " ++ toString (items.length - 5) ++ " more"]
      else [])
  | .none => []

/-- Embeds `DiagnosticAgent._format_metrics`: the per-metric lines joined with
newlines, or the placeholder when no line was produced. -/
def formatMetrics (metrics : List (String × Triage.PyVal)) : String :=
  let lines := (metrics.map fun md => diagMetricLines md.1 md.2).flatten
  if lines.isEmpty then "No metrics available"
  else String.intercalate "\n" lines

/-- C8 counterexample: the per-metric renderings of
`DiagnosticAgent._format_metrics` and `TriageAgent._generate_summary` do not
agree: an error metric is rendered `"- m: ERROR - boom"` by the former and
`"  - m: Error - boom"` by the latter, and a list-valued metric is itemized
by the former but shown as a count by the latter. -/
theorem per_metric_renderings_disagree :
    diagMetricLines "m" (.err "boom") = ["- m: ERROR - boom"] ∧
      Triage.summaryLine "m" (.err "boom") = some "  - m: Error - boom" ∧
      ("- m: ERROR - boom" : String) ≠ "  - m: Error - boom" ∧
      Triage.summaryLine "m" (.multi [([], 1)]) =
        some "  - m: 1 data points" ∧
      diagMetricLines "m" (.multi [([], 1)]) =
        ["- m:", "    • N/A: 1.0000"] := by
  refine ⟨rfl, rfl, by decide, rfl, by decide⟩

/-- C8 (amended): both components format a numeric metric value with the
same fixed 4-decimal rule, and for numeric metrics the two lines agree up to
the triage summary's extra two-space indent; but the renderings are not
identical in general — the triage summary shows a list-valued metric as its
item count, which the diagnostic formatter instead itemizes. -/
theorem numeric_rendering_shared_up_to_indent (name : String)
    (l : List (String × String)) (q : ℚ)
    (items : List (List (String × String) × ℚ)) :
    diagMetricLines name (.single l q) =
        ["- " ++ name ++ ": " ++ formatFixed4 q] ∧
      Triage.summaryLine name (.single l q) =
        some ("  " ++ ("- " ++ name ++ ": " ++ formatFixed4 q)) ∧
      Triage.summaryLine name (.multi items) =
        some ("  - " ++ name ++ ": " ++ toString items.length ++
          " data points") := by
  refine ⟨rfl, ?_, rfl⟩
  simp only [← String.append_assoc]
  rfl

/-- Splits a character list at every occurrence of `sep` (Python
`str.split(sep)` for a one-character separator). -/
def splitOnChar (sep : Char) : List Char → List (List Char)
  | [] => [[]]
  | c :: rest =>
      let r := splitOnChar sep rest
      if c = sep then [] :: r
      else
        match r with
        | [] => [[c]]
        | h :: t => (c :: h) :: t

/-- Removes leading and trailing whitespace (Python `str.strip()`). -/
def trimChars (l : List Char) : List Char :=
  ((l.dropWhile Char.isWhitespace).reverse.dropWhile Char.isWhitespace).reverse

/-- Embeds Python `text.split("\n")`. -/
def pySplitLines (s : String) : List String :=
  (splitOnChar '\n' s.data).map String.mk

/-- Embeds Python `s.strip()`. -/
def pyStrip (s : String) : String :=
  String.mk (trimChars s.data)

/-- Embeds Python `s.upper()`. -/
def pyUpper (s : String) : String :=
  String.mk (s.data.map Char.toUpper)

/-- Embeds Python `s.lower()`. -/
def pyLower (s : String) : String :=
  String.mk (s.data.map Char.toLower)

/-- Embeds Python `s.startswith(pre)`. -/
def pyStartsWith (s pre : String) : Bool :=
  pre.data.isPrefixOf s.data

/-- Embeds Python slicing `s[n:]`. -/
def pyDrop (s : String) (n : Nat) : String :=
  String.mk (s.data.drop n)

/-- Index of the first position of `hay` at which `needle` starts, scanning
left to right. -/
def findSubAux (needle : List Char) : List Char → Nat → Option Nat
  | [], i => if needle.isEmpty then some i else Option.none
  | c :: rest, i =>
      if needle.isPrefixOf (c :: rest) then some i
      else findSubAux needle rest (i + 1)

/-- First occurrence index of `needle` in `hay`. -/
def findSub (hay needle : List Char) : Option Nat :=
  findSubAux needle hay 0

/-- Substring test, modelling Python's `in` on strings. -/
def containsSub (hay needle : String) : Bool :=
  (findSub hay.data needle.data).isSome

/-- The parser state of `DiagnosticAgent._parse_diagnosis`
(`current_section`). -/
inductive Sect where
  | rootCause
  | evidence
  | recommendations
  | confidence
deriving DecidableEq

/-- The structured result dict of `DiagnosticAgent._parse_diagnosis`. -/
structure Diagnosis where
  root_cause : String
  evidence : String
  recommendations : List String
  confidence : String
deriving DecidableEq

/-- The initial `result` dict of `_parse_diagnosis`. -/
def initDiagnosis : Diagnosis :=
  { root_cause := ""
    evidence := ""
    recommendations := []
    confidence := "medium" }

/-- Header test `"ROOT CAUSE" in line.upper()`. -/
def isRootHeader (l : String) : Bool :=
  containsSub (pyUpper l) "ROOT CAUSE"

/-- Header test `"EVIDENCE" in line.upper() or "SUPPORTING" in line.upper()`. -/
def isEvidenceHeader (l : String) : Bool :=
  containsSub (pyUpper l) "EVIDENCE" || containsSub (pyUpper l) "SUPPORTING"

/-- Header test `"RECOMMEND" in line.upper() or "ACTION" in line.upper()`. -/
def isRecHeader (l : String) : Bool :=
  containsSub (pyUpper l) "RECOMMEND" || containsSub (pyUpper l) "ACTION"

/-- Header test `"CONFIDENCE" in line.upper()`. -/
def isConfHeader (l : String) : Bool :=
  containsSub (pyUpper l) "CONFIDENCE"

/-- Any of the four header tests fires on the (stripped) line. -/
def isHeaderLine (l : String) : Bool :=
  isRootHeader l || isEvidenceHeader l || isRecHeader l || isConfHeader l

/-- Bullet test `line.startswith("-") or line.startswith("•")`. -/
def bulletStart (l : String) : Bool :=
  pyStartsWith l "-" || pyStartsWith l "•"

/-- Digit test `line[0].isdigit()` (on a non-empty line). -/
def digitStart (l : String) : Bool :=
  (l.data.head?.map Char.isDigit).getD false

/-- Embeds `line.lstrip("-•0123456789. ").strip()`: the cleaned
recommendation entry. -/
def cleanRec (l : String) : String :=
  pyStrip (String.mk (l.data.dropWhile (fun c => "-•0123456789. ".data.contains c)))

/-- A line is turned into a recommendation entry iff it is non-empty, starts
with a bullet or a digit, and is non-empty after cleaning. -/
def recLineAccepted (l : String) : Bool :=
  (l != "") && (bulletStart l || digitStart l) && (cleanRec l != "")

/-- The body of the `for line in lines:` loop of
`DiagnosticAgent._parse_diagnosis`: strip the line, switch section on a
header match (and consume the line), otherwise accumulate into the current
section's field. -/
def stepLine (st : Option Sect × Diagnosis) (rawLine : String) :
    Option Sect × Diagnosis :=
  let line := pyStrip rawLine
  if isRootHeader line then (some .rootCause, st.2)
  else if isEvidenceHeader line then (some .evidence, st.2)
  else if isRecHeader line then (some .recommendations, st.2)
  else if isConfHeader line then (some .confidence, st.2)
  else
    match st.1 with
    | some .rootCause =>
        if line != "" then
          if bulletStart line then
            (st.1, { st.2 with
              root_cause := st.2.root_cause ++ pyStrip (pyDrop line 1) ++ " " })
          else if (st.2.root_cause != "") && !(pyStartsWith line "#") then
            (st.1, { st.2 with root_cause := st.2.root_cause ++ line ++ " " })
          else st
        else st
    | some .evidence =>
        if line != "" then
          if bulletStart line then
            (st.1, { st.2 with
              evidence := st.2.evidence ++ pyStrip (pyDrop line 1) ++ " " })
          else if (st.2.evidence != "") && !(pyStartsWith line "#") then
            (st.1, { st.2 with evidence := st.2.evidence ++ line ++ " " })
          else st
        else st
    | some .recommendations =>
        if line != "" then
          if bulletStart line || digitStart line then
            let clean := cleanRec line
            if clean != "" then
              (st.1, { st.2 with
                recommendations := st.2.recommendations ++ [clean] })
            else st
          else st
        else st
    | some .confidence =>
        if line != "" then
          let ll := pyLower line
          if containsSub ll "high" then
            (st.1, { st.2 with confidence := "high" })
          else if containsSub ll "low" then
            (st.1, { st.2 with confidence := "low" })
          else if containsSub ll "medium" then
            (st.1, { st.2 with confidence := "medium" })
          else st
        else st
    | Option.none => st

/-- The section-scanning loop of `DiagnosticAgent._parse_diagnosis` (the
`result` dict before the final root-cause fallback). -/
def parseDiagnosisLoop (text : String) : Diagnosis :=
  ((pySplitLines text).foldl stepLine (Option.none, initDiagnosis)).2

/-- Embeds `DiagnosticAgent._parse_diagnosis`: the scanning loop followed by
the fallback — if the accumulated root cause is whitespace-empty, it is
replaced by the first 500 characters of the raw response. -/
def parseDiagnosis (text : String) : Diagnosis :=
  let r := parseDiagnosisLoop text
  if pyStrip r.root_cause = "" then
    { r with root_cause := String.mk (text.data.take 500) }
  else r

/-- C3: when the scanning loop leaves the root cause (whitespace-)empty —
no section header was found or no body line accumulated — the parsed root
cause is exactly the first 500 characters of the raw response, and for a
non-empty response the parsed root cause is therefore never the empty
string. -/
theorem empty_root_cause_falls_back_to_first500 (text : String) :
    (pyStrip (parseDiagnosisLoop text).root_cause = "" →
      (parseDiagnosis text).root_cause = String.mk (text.data.take 500)) ∧
    (text ≠ "" → (parseDiagnosis text).root_cause ≠ "") := by
  constructor
  · intro h
    simp [parseDiagnosis, h]
  · intro ht hc
    have hdata : text.data ≠ [] := by
      intro hd
      apply ht
      cases text with
      | mk data => rw [show data = [] from hd]
    by_cases h : pyStrip (parseDiagnosisLoop text).root_cause = ""
    · simp only [parseDiagnosis, h, if_true] at hc
      have hd := congrArg String.data hc
      simp only at hd
      rcases List.take_eq_nil_iff.mp hd with h500 | hnil
      · exact absurd h500 (by decide)
      · exact hdata hnil
    · simp only [parseDiagnosis, h, if_false] at hc
      exact h (by rw [hc]; rfl)

/-- Witness for `empty_root_cause_falls_back_to_first500` at the headerless
response `"x"`. -/
theorem empty_root_cause_falls_back_to_first500_witness :
    (parseDiagnosis "x").root_cause = String.mk ("x".data.take 500) ∧
      (parseDiagnosis "x").root_cause ≠ "" :=
  ⟨(empty_root_cause_falls_back_to_first500 "x").1 (by decide),
    (empty_root_cause_falls_back_to_first500 "x").2 (by decide)⟩

/-- C7 counterexample: after a section header is matched, a subsequent
non-empty line does *not* always accumulate: in the root-cause section a
plain line (no bullet, field still empty) is dropped, and in the
recommendations section a plain line (no bullet, no leading digit) is
dropped. -/
theorem plain_line_after_header_is_dropped :
    (parseDiagnosisLoop "ROOT CAUSE\nDatabase is down").root_cause = "" ∧
      ("Database is down" : String) ≠ "" ∧
      (parseDiagnosisLoop "RECOMMEND\nRestart the service").recommendations =
        [] ∧
      ("Restart the service" : String) ≠ "" := by
  refine ⟨by decide, by decide, by decide, by decide⟩

/-- C7 (amended): once a section is entered it persists until the next
header line; but a non-empty line accumulates only conditionally: a
root-cause (or evidence) line accumulates iff it starts with a bullet
(`-`/`•`, the bullet character being stripped) or the field is already
non-empty and the line does not start with `#`; a line becomes one
recommendation entry, appended in order, iff it starts with a bullet or a
digit and still is non-empty after stripping leading `-•`, digits, periods
and spaces; all other lines are ignored. -/
theorem section_accumulation_is_conditional (d : Diagnosis)
    (rawLine : String) (hnh : isHeaderLine (pyStrip rawLine) = false) :
    (∀ sect, (stepLine (sect, d) rawLine).1 = sect) ∧
    ((stepLine (some .recommendations, d) rawLine).2.recommendations =
      d.recommendations ++
        (if recLineAccepted (pyStrip rawLine) then [cleanRec (pyStrip rawLine)]
         else [])) ∧
    ((stepLine (some .rootCause, d) rawLine).2.root_cause =
      if (pyStrip rawLine != "") && bulletStart (pyStrip rawLine) then
        d.root_cause ++ pyStrip (pyDrop (pyStrip rawLine) 1) ++ " "
      else if (pyStrip rawLine != "") && ((d.root_cause != "") &&
          !(pyStartsWith (pyStrip rawLine) "#")) then
        d.root_cause ++ pyStrip rawLine ++ " "
      else d.root_cause) ∧
    ((stepLine (some .evidence, d) rawLine).2.evidence =
      if (pyStrip rawLine != "") && bulletStart (pyStrip rawLine) then
        d.evidence ++ pyStrip (pyDrop (pyStrip rawLine) 1) ++ " "
      else if (pyStrip rawLine != "") && ((d.evidence != "") &&
          !(pyStartsWith (pyStrip rawLine) "#")) then
        d.evidence ++ pyStrip rawLine ++ " "
      else d.evidence) := by
  have h' := hnh
  simp only [isHeaderLine, Bool.or_eq_false_iff] at h'
  obtain ⟨⟨⟨h1, h2⟩, h3⟩, h4⟩ := h'
  refine ⟨?_, ?_, ?_, ?_⟩
  · intro sect
    cases sect with
    | none => simp [stepLine, h1, h2, h3, h4]
    | some s =>
        cases s <;>
          simp only [stepLine, h1, h2, h3, h4, Bool.false_eq_true,
            if_false] <;>
          split_ifs <;> rfl
  · by_cases he : (pyStrip rawLine != "") = true <;>
      by_cases hbd : (bulletStart (pyStrip rawLine) ||
        digitStart (pyStrip rawLine)) = true <;>
      by_cases hcl : (cleanRec (pyStrip rawLine) != "") = true <;>
      simp [stepLine, h1, h2, h3, h4, recLineAccepted, he, hbd, hcl]
  · by_cases he : (pyStrip rawLine != "") = true <;>
      by_cases hb : bulletStart (pyStrip rawLine) = true <;>
      by_cases hc : ((d.root_cause != "") &&
        !(pyStartsWith (pyStrip rawLine) "#")) = true <;>
      simp [stepLine, h1, h2, h3, h4, he, hb, hc]
  · by_cases he : (pyStrip rawLine != "") = true <;>
      by_cases hb : bulletStart (pyStrip rawLine) = true <;>
      by_cases hc : ((d.evidence != "") &&
        !(pyStartsWith (pyStrip rawLine) "#")) = true <;>
      simp [stepLine, h1, h2, h3, h4, he, hb, hc]

/-- Witness for `section_accumulation_is_conditional` at the bullet line
`"- restart db"` against a partially filled record. -/
theorem section_accumulation_is_conditional_witness :
    (∀ sect,
      (stepLine (sect, ⟨"seed ", "ev ", ["r0"], "medium"⟩)
        "- restart db").1 = sect) ∧
    ((stepLine (some .recommendations, ⟨"seed ", "ev ", ["r0"], "medium"⟩)
        "- restart db").2.recommendations =
      ["r0"] ++
        (if recLineAccepted (pyStrip "- restart db") then
          [cleanRec (pyStrip "- restart db")]
         else [])) ∧
    ((stepLine (some .rootCause, ⟨"seed ", "ev ", ["r0"], "medium"⟩)
        "- restart db").2.root_cause =
      if pyStrip "- restart db" != "" ∧ bulletStart (pyStrip "- restart db")
      then "seed " ++ pyStrip (pyDrop (pyStrip "- restart db") 1) ++ " "
      else if pyStrip "- restart db" != "" ∧ ("seed " : String) != "" ∧
          !(pyStartsWith (pyStrip "- restart db") "#") then
        "seed " ++ pyStrip "- restart db" ++ " "
      else "seed ") ∧
    ((stepLine (some .evidence, ⟨"seed ", "ev ", ["r0"], "medium"⟩)
        "- restart db").2.evidence =
      if pyStrip "- restart db" != "" ∧ bulletStart (pyStrip "- restart db")
      then "ev " ++ pyStrip (pyDrop (pyStrip "- restart db") 1) ++ " "
      else if pyStrip "- restart db" != "" ∧ ("ev " : String) != "" ∧
          !(pyStartsWith (pyStrip "- restart db") "#") then
        "ev " ++ pyStrip "- restart db" ++ " "
      else "ev ") :=
  section_accumulation_is_conditional ⟨"seed ", "ev ", ["r0"], "medium"⟩
    "- restart db" (by decide)

end Diagnostic

namespace Remediation

/-- A Python JSON value: the possible results of `json.loads` and of the
LangChain `JsonOutputParser`. -/
inductive Json where
  | null
  | bool (b : Bool)
  | num (q : ℚ)
  | str (s : String)
  | arr (items : List Json)
  | obj (fields : List (String × Json))

/-- The fixed safe-default plan returned by `RemediationAgent.propose_fix`
when every parsing attempt failed. -/
def defaultPlan : Json :=
  .obj [("action_type", .str "manual_step"),
    ("description", .str "Failed to generate automated fix"),
    ("content", .str "Please investigate manually. AI generation failed."),
    ("risk_level", .str "high")]

/-- Embeds the regex search
`re.search(r"BTICKjson\n(.*?)\nBTICK", content, re.DOTALL)` (with `BTICK`
three backticks): the group between the first fence opening and the first
fence closing after it, if both exist. -/
def extractFenced (s : String) : Option String :=
  match Diagnostic.findSub s.data "```json\n".data with
  | Option.none => Option.none
  | some i =>
      let rest := s.data.drop (i + 8)
      match Diagnostic.findSub rest "\n```".data with
      | Option.none => Option.none
      | some j => some (String.mk (rest.take j))

/-- Embeds `RemediationAgent.propose_fix` from the LLM response text
onward.  The two external parsers are explicit parameters: `strictParse` is
`self.parser.parse` (the LangChain `JsonOutputParser` for the
`RemediationPlan` schema) and `jsonLoads` is `json.loads`; `Option.none`
models a raised parsing exception.  A strict-parse success is returned
directly; on failure the fenced block is extracted and parsed (a success is
returned as-is); any remaining failure re-raises into the outer `except`,
which returns the fixed safe-default plan. -/
def proposeFix (strictParse jsonLoads : String → Option Json)
    (content : String) : Json :=
  match strictParse content with
  | some r => r
  | Option.none =>
      match extractFenced content with
      | some inner =>
          match jsonLoads inner with
          | some j => j
          | Option.none => defaultPlan
      | Option.none => defaultPlan

/-- C2: `propose_fix` is total over response texts and parser outcomes, and
degrades in exactly the documented order — the strict parse result when it
succeeds; else the JSON parsed from the first fenced ```json block when that
succeeds (in particular any fenced valid `RemediationPlan` is returned);
else exactly the fixed safe-default plan with action kind `manual_step`,
description `"Failed to generate automated fix"` and risk grade `high`. -/
theorem propose_fix_is_total_with_ordered_fallbacks
    (strictParse jsonLoads : String → Option Json) (content : String) :
    (∀ r, strictParse content = some r →
      proposeFix strictParse jsonLoads content = r) ∧
    (∀ inner j, strictParse content = Option.none →
      extractFenced content = some inner → jsonLoads inner = some j →
      proposeFix strictParse jsonLoads content = j) ∧
    (strictParse content = Option.none →
      (extractFenced content = Option.none ∨
        ∃ inner, extractFenced content = some inner ∧
          jsonLoads inner = Option.none) →
      proposeFix strictParse jsonLoads content =
        .obj [("action_type", .str "manual_step"),
          ("description", .str "Failed to generate automated fix"),
          ("content",
            .str "Please investigate manually. AI generation failed."),
          ("risk_level", .str "high")]) := by
  refine ⟨?_, ?_, ?_⟩
  · intro r hr
    simp [proposeFix, hr]
  · intro inner j hs he hj
    simp [proposeFix, hs, he, hj]
  · intro hs hfail
    rcases hfail with he | ⟨inner, he, hj⟩
    · simp [proposeFix, hs, he, defaultPlan]
    · simp [proposeFix, hs, he, hj, defaultPlan]

/-- Witness for `propose_fix_is_total_with_ordered_fallbacks`: a response
whose strict parse fails but which carries a fenced block parsed by
`json.loads`, and a second response with no fence at all. -/
theorem propose_fix_is_total_with_ordered_fallbacks_witness :
    proposeFix (fun _ => Option.none)
        (fun s => if s = "inner" then some (.str "ok") else Option.none)
        "a```json\ninner\n```b" = .str "ok" ∧
      proposeFix (fun _ => Option.none)
          (fun s => if s = "inner" then some (.str "ok") else Option.none)
          "no fence here" =
        .obj [("action_type", .str "manual_step"),
          ("description", .str "Failed to generate automated fix"),
          ("content",
            .str "Please investigate manually. AI generation failed."),
          ("risk_level", .str "high")] :=
  ⟨(propose_fix_is_total_with_ordered_fallbacks (fun _ => Option.none)
      (fun s => if s = "inner" then some (.str "ok") else Option.none)
      "a```json\ninner\n```b").2.1 "inner" (.str "ok") rfl (by decide) rfl,
    (propose_fix_is_total_with_ordered_fallbacks (fun _ => Option.none)
      (fun s => if s = "inner" then some (.str "ok") else Option.none)
      "no fence here").2.2 rfl (.inl (by decide))⟩

end Remediation
